import Mathlib

/-!
Formal model of the orchestration core of the stock-agent repository:
the in-memory session store of api_server.py, the quiz sub-state-machine
of rag/stock_agent/graph/tools/quiz/session_manager.py and
rag/stock_agent/graph/nodes/quiz_stock_data.py, the tool-calling protocol of
rag/stock_agent/graph/clova_function_calling.py, and the classification and
clarification nodes of rag/stock_agent/graph/nodes/.

Python strings are modelled as lists of characters, Python dicts that are
used as records are modelled as structures (with the empty dict as none),
timestamps as natural-number seconds, and every external collaborator
(language-model calls, the quiz database, file parsing, news lookup) as an
explicit oracle argument.  A pair of parallel dicts updated in lockstep is
modelled as a single association list.
-/

namespace StockAgent

/-- Python str values modelled at the character level. -/
abbrev Str := List Char

/-- Python str.lower applied per character. -/
def lowerStr (s : Str) : Str := s.map Char.toLower

/-- Python substring test, the `x in s` operator on str. -/
def containsStr (haystack needle : Str) : Bool := decide (needle <:+: haystack)

/-- Python str.strip: drop leading and trailing whitespace. -/
def stripStr (s : Str) : Str :=
  ((s.dropWhile Char.isWhitespace).reverse.dropWhile Char.isWhitespace).reverse

/-- The QuizSessionPhase enum of session_manager.py. -/
inductive QuizSessionPhase where
  | INACTIVE
  | ASKING
  | PROCESSING
  | COMPLETED
deriving DecidableEq, Repr

/-- The .value attribute of the QuizSessionPhase enum members. -/
def QuizSessionPhase.value : QuizSessionPhase → Str
  | .INACTIVE => "inactive".data
  | .ASKING => "asking".data
  | .PROCESSING => "processing".data
  | .COMPLETED => "completed".data

/-- One parsed quiz question: the quiz_data dict selected from Quiz.txt.
The correct_answer sub-dict is flattened into its option and company keys. -/
structure QuizData where
  id : Nat
  question : Str
  correct_option : Str
  correct_company : Str
deriving DecidableEq, Repr

/-- One entry of the results list that quiz_stock_data.py stores under
state["data"]["results"], tagged by its "type" key.  Only the keys that the
quiz node itself writes and reads are modelled; the derived session_info
view is omitted. -/
inductive QuizResultEntry where
  | quizGeneration (quiz_text : Str) (quiz_data : QuizData)
  | answerChecking (result_text : Str) (is_correct : Bool) (session_completed : Bool)
  | wrongAnswerWithHint (wrong_answer_message : Str) (user_answer : Str)
      (hint_text : Str) (quiz_continues : Bool)
  | hintProvided (hint_text : Str) (quiz_continues : Bool)
  | sessionCompleted (completion_text : Str) (new_quiz_available : Bool)
  | errorEntry (error_text : Str) (suggestion : Str)
deriving DecidableEq, Repr

/-- The state["data"] payload dict written by the quiz node. -/
structure AgentData where
  source : Str
  results : List QuizResultEntry
  total_count : Nat
  summary : Str
  query_type : Str
deriving DecidableEq, Repr

/-- The clarification_info dict written by clarify_question_node. -/
structure ClarificationInfo where
  original_query : Str
  clarified_query : Str
  start_date : Str
  end_date : Str
  market_scope : Str
  primary_criteria : Str
  secondary_criteria : Str
deriving DecidableEq, Repr

/-- The StockAgentState TypedDict of rag/stock_agent/graph/state.py.
Optional-dict fields use none for the empty dict; the quiz session start
time (an ISO-format string in the source) is a second-valued timestamp,
with none standing for the empty or unparseable string. -/
structure StockAgentState where
  api_key : Str
  data : Option AgentData
  context : List (Str × Str)
  query : Str
  response : Str
  query_category : Str
  clarification_info : Option ClarificationInfo
  request_id : Str
  quiz_session_active : Bool
  quiz_current_question : Option QuizData
  quiz_session_start_time : Option Nat
  quiz_hint_used : Bool
  quiz_session_phase : Str
  quiz_session_id : Str
deriving DecidableEq, Repr

/-- The default_stock_agent_state constructor of state.py. -/
def default_stock_agent_state : StockAgentState :=
  ⟨[], none, [], [], [], [], none, [], false, none, none, false, "inactive".data, []⟩

/-- One row of the durable quiz_history table written by
QuizDatabase.save_quiz_result. -/
structure QuizHistoryRecord where
  request_id : Str
  quiz_id : Nat
  quiz_question : Str
  correct_answer : Str
  user_answer : Str
  is_correct : Bool
  hint_used : Bool
  reward_stock : Str
  reward_amount : Nat
deriving DecidableEq, Repr

/-- The durable quiz-history storage, as the sequence of inserted rows. -/
abbrev QuizDB := List QuizHistoryRecord

/-- Behaviour of the external QuizDatabase.save_quiz_result collaborator on
one call: it returns True, returns False, or raises (the exception is caught
by end_session's inner except block). -/
inductive SaveOutcome where
  | ok
  | failed
  | raised
deriving DecidableEq, Repr

/-- The reward_info dict passed to end_session. -/
structure RewardInfo where
  stock : Str
  amount : Nat
deriving DecidableEq, Repr

/-- Shared idle timeout in minutes (api_server.py and session_manager.py). -/
def SESSION_TIMEOUT_MINUTES : Nat := 10

namespace QuizSessionManager

/-- QuizSessionManager.is_session_active. -/
def is_session_active (state : StockAgentState) : Bool :=
  state.quiz_session_active

/-- QuizSessionManager.update_session_phase: when no session is active the
update is skipped with a warning; otherwise the phase field is overwritten
with the requested value, with no validity check. -/
def update_session_phase (state : StockAgentState) (new_phase : QuizSessionPhase) :
    StockAgentState :=
  if ¬ is_session_active state then state
  else { state with quiz_session_phase := new_phase.value }

/-- The keyword arguments of QuizSessionManager.end_session. -/
structure EndSessionArgs where
  save_to_db : Bool
  user_answer : Str
  is_correct : Bool
  request_id : Str
  reward_info : Option RewardInfo
deriving DecidableEq, Repr

/-- The Python default values of end_session's keyword arguments. -/
def end_session_default_args : EndSessionArgs :=
  ⟨false, [], false, [], none⟩

/-- QuizSessionManager.end_session: optionally writes one quiz-history row
(when save_to_db is set and a current question exists, and the external save
call returns True), then resets every quiz session field.  A failing or
raising save does not prevent the reset. -/
def end_session (save : SaveOutcome) (args : EndSessionArgs)
    (state : StockAgentState) (db : QuizDB) : StockAgentState × QuizDB :=
  let db' := match args.save_to_db, state.quiz_current_question with
    | true, some current_quiz =>
        let reward := args.reward_info.getD ⟨[], 0⟩
        match save with
        | .ok => db ++ [⟨args.request_id, current_quiz.id, current_quiz.question,
            current_quiz.correct_company, args.user_answer, args.is_correct,
            state.quiz_hint_used, reward.stock, reward.amount⟩]
        | .failed => db
        | .raised => db
    | _, _ => db
  ({ state with
      quiz_session_active := false,
      quiz_session_id := [],
      quiz_session_start_time := none,
      quiz_current_question := none,
      quiz_hint_used := false,
      quiz_session_phase := QuizSessionPhase.INACTIVE.value }, db')

/-- QuizSessionManager.is_session_expired, with now the current time in
seconds: inactive sessions are never expired; an active session with no (or
an unparseable) start time counts as expired; otherwise expiry is a strict
comparison of the elapsed time against the ten-minute timeout. -/
def is_session_expired (now : Nat) (state : StockAgentState) : Bool :=
  if ¬ is_session_active state then false
  else match state.quiz_session_start_time with
    | none => true
    | some start_time => decide (now - start_time > SESSION_TIMEOUT_MINUTES * 60)

/-- QuizSessionManager.cleanup_expired_session: tear down the session when
it is expired, otherwise leave the state untouched. -/
def cleanup_expired_session (now : Nat) (save : SaveOutcome)
    (state : StockAgentState) (db : QuizDB) : StockAgentState × QuizDB :=
  if is_session_expired now state then end_session save end_session_default_args state db
  else (state, db)

/-- QuizSessionManager.start_new_session: force-end any existing active
session, then initialise the quiz fields; the fresh session id comes from
the external QuizDatabase.generate_session_id. -/
def start_new_session (now : Nat) (save : SaveOutcome) (session_id : Str)
    (quiz_data : QuizData) (state : StockAgentState) (db : QuizDB) :
    StockAgentState × QuizDB :=
  let p := if state.quiz_session_active
    then end_session save end_session_default_args state db
    else (state, db)
  ({ p.1 with
      quiz_session_active := true,
      quiz_session_id := session_id,
      quiz_session_start_time := some now,
      quiz_current_question := some quiz_data,
      quiz_hint_used := false,
      quiz_session_phase := QuizSessionPhase.ASKING.value }, p.2)

/-- The valid_transitions dict of validate_session_transition, as a lookup
from the current phase string to the allowed target phase strings (with the
dict's .get default of the empty list). -/
def valid_transition_targets (current_phase : Str) : List Str :=
  if current_phase = QuizSessionPhase.INACTIVE.value then
    [QuizSessionPhase.ASKING.value]
  else if current_phase = QuizSessionPhase.ASKING.value then
    [QuizSessionPhase.PROCESSING.value, QuizSessionPhase.COMPLETED.value]
  else if current_phase = QuizSessionPhase.PROCESSING.value then
    [QuizSessionPhase.COMPLETED.value]
  else if current_phase = QuizSessionPhase.COMPLETED.value then
    [QuizSessionPhase.INACTIVE.value]
  else []

/-- QuizSessionManager.validate_session_transition: reports (without
mutating anything, and without crashing) whether the requested transition
appears in the allow-list table. -/
def validate_session_transition (state : StockAgentState)
    (target_phase : QuizSessionPhase) : Bool :=
  decide (target_phase.value ∈ valid_transition_targets state.quiz_session_phase)

end QuizSessionManager

/-! ## Session Store (api_server.py) -/

/-- MAX_SESSIONS of api_server.py. -/
def MAX_SESSIONS : Nat := 5

/-- One live session: a key of the parallel dicts session_store and
session_timestamps together with its two values. -/
structure SessionEntry where
  sid : Str
  state : StockAgentState
  timestamp : Nat
deriving DecidableEq, Repr

/-- The process-wide session storage.  The source keeps two dicts keyed by
session id that every mutation site updates together; they are modelled as
one insertion-ordered association list with (in practice) unique keys. -/
abbrev SessionStore := List SessionEntry

/-- Session ids currently present in the store. -/
def sessionIds (store : SessionStore) : List Str :=
  store.map SessionEntry.sid

/-- Removal condition of the first loop of cleanup_expired_sessions: idle
strictly longer than ten minutes, or an active embedded quiz session that
is itself expired. -/
def sessionExpiredFlag (now : Nat) (e : SessionEntry) : Bool :=
  decide (now - e.timestamp > SESSION_TIMEOUT_MINUTES * 60) ||
    (e.state.quiz_session_active &&
      QuizSessionManager.is_session_expired now e.state)

/-- Insertion step of a stable sort by timestamp: the inserted element goes
before the first element whose timestamp is not strictly smaller. -/
def insertByTimestamp (e : SessionEntry) : List SessionEntry → List SessionEntry
  | [] => [e]
  | x :: xs =>
      if x.timestamp < e.timestamp then x :: insertByTimestamp e xs
      else e :: x :: xs

/-- Stable sort by ascending timestamp, modelling Python's
sorted(session_timestamps.items(), key=lambda x: x[1]). -/
def sortByTimestamp : List SessionEntry → List SessionEntry
  | [] => []
  | x :: xs => insertByTimestamp x (sortByTimestamp xs)

/-- cleanup_expired_sessions of api_server.py: drop every expired entry,
then, if the population still exceeds MAX_SESSIONS, drop the
least-recently-active entries until exactly MAX_SESSIONS remain. -/
def cleanup_expired_sessions (now : Nat) (store : SessionStore) : SessionStore :=
  let expired_sessions := (store.filter (sessionExpiredFlag now)).map SessionEntry.sid
  let store1 := store.filter (fun e => decide (e.sid ∉ expired_sessions))
  if store1.length > MAX_SESSIONS then
    let sessions_to_remove :=
      ((sortByTimestamp store1).take (store1.length - MAX_SESSIONS)).map SessionEntry.sid
    store1.filter (fun e => decide (e.sid ∉ sessions_to_remove))
  else store1

/-- Timestamp refresh on lookup of an existing session: the dict assignment
session_timestamps[request_id] = datetime.now() keeps the entry in place. -/
def refreshTimestamp (now : Nat) (request_id : Str) (store : SessionStore) :
    SessionStore :=
  store.map (fun e => if e.sid = request_id then { e with timestamp := now } else e)

/-- get_session_state of api_server.py: sweep first, then either restore an
existing session (refreshing its timestamp), or create a default state,
persisting it only for a non-empty request id. -/
def get_session_state (now : Nat) (request_id : Str) (store : SessionStore) :
    StockAgentState × SessionStore :=
  let store := cleanup_expired_sessions now store
  if request_id = [] then (default_stock_agent_state, store)
  else match store.find? (fun e => decide (e.sid = request_id)) with
    | some e => (e.state, refreshTimestamp now request_id store)
    | none =>
        (default_stock_agent_state,
          store ++ [⟨request_id, default_stock_agent_state, now⟩])

/-- save_session_state of api_server.py: upsert (without any sweep) for a
non-empty request id, refreshing the timestamp; a no-op otherwise. -/
def save_session_state (now : Nat) (request_id : Str) (state : StockAgentState)
    (store : SessionStore) : SessionStore :=
  if request_id = [] then store
  else if store.any (fun e => decide (e.sid = request_id)) then
    store.map (fun e => if e.sid = request_id then ⟨request_id, state, now⟩ else e)
  else store ++ [⟨request_id, state, now⟩]

/-! ## Tool-Calling Protocol (clova_function_calling.py) -/

/-- Parsed tool-call arguments: a JSON object as an opaque key-value bag. -/
abbrev ToolArgs := List (Str × Str)

/-- The argument payload carried by one requested tool call: already
structured, or JSON-encoded text still to be parsed by json.loads. -/
inductive ArgPayload where
  | text (s : Str)
  | structured (a : ToolArgs)
deriving DecidableEq, Repr

/-- One tool_call object of the model response; the name and arguments of
its nested function object are flattened into top-level fields. -/
structure ToolCall where
  call_id : Str
  function_name : Str
  arguments : ArgPayload
deriving DecidableEq, Repr

/-- The per-invocation result dict built by execute_tool. -/
structure ToolResult where
  tool_call_id : Str
  function_name : Str
  arguments : ArgPayload
  result : Str
  success : Bool
deriving DecidableEq, Repr

/-- The name-to-callable registry (tool_functions); each callable returns a
serialized result payload or raises with an error message. -/
abbrev ToolRegistry := List (Str × (ToolArgs → Except Str Str))

/-- execute_tool of clova_function_calling.py: parse string arguments via
json.loads (an oracle, since the JSON grammar is external to this core),
look the function up by name, invoke it, and encode any raised error as a
failed result whose payload is the error text. -/
def execute_tool (jsonLoads : Str → Except Str ToolArgs)
    (tool_functions : ToolRegistry) (tool_call : ToolCall) : ToolResult :=
  let parsed : Except Str ToolArgs := match tool_call.arguments with
    | .text s => jsonLoads s
    | .structured a => Except.ok a
  match parsed with
  | .error e =>
      ⟨tool_call.call_id, tool_call.function_name, tool_call.arguments,
        "도구 실행 중 오류: ".data ++ e, false⟩
  | .ok args =>
      match tool_functions.find? (fun p => decide (p.1 = tool_call.function_name)) with
      | some p =>
          match p.2 args with
          | .ok result =>
              ⟨tool_call.call_id, tool_call.function_name, .structured args,
                result, true⟩
          | .error e =>
              ⟨tool_call.call_id, tool_call.function_name, .structured args,
                "도구 실행 중 오류: ".data ++ e, false⟩
      | none =>
          ⟨tool_call.call_id, tool_call.function_name, .structured args,
            "함수 ".data ++ tool_call.function_name ++ "를 찾을 수 없습니다.".data,
            false⟩

/-- The message object inside a completion response; the toolCalls and
tool_calls fields model the two accepted response-shape key variants, each
present or absent. -/
structure ClovaMessage where
  content : Option Str
  toolCalls : Option (List ToolCall)
  tool_calls : Option (List ToolCall)
deriving DecidableEq, Repr

/-- The result member of the Clova v3 response shape, whose message key may
be absent. -/
structure ClovaResultField where
  message : Option ClovaMessage
deriving DecidableEq, Repr

/-- One entry of the choices list of the alternative response shape. -/
structure ClovaChoice where
  message : ClovaMessage
deriving DecidableEq, Repr

/-- The completion-service response body, with both envelope variants
optional. -/
structure ClovaResponse where
  result : Option ClovaResultField
  choices : Option (List ClovaChoice)
deriving DecidableEq, Repr

/-- The message of the first entry of a non-empty choices list, if any
(an empty choices list is falsy in the source's elif test). -/
def firstChoiceMessage (response : ClovaResponse) : Option ClovaMessage :=
  match response.choices with
  | some (c :: _) => some c.message
  | _ => none

/-- The response-shape dispatch at the top of process_function_calling:
prefer result.message (the Clova v3 shape), else the first entry of a
non-empty choices list; none means the response is reported malformed. -/
def extractMessage (response : ClovaResponse) : Option ClovaMessage :=
  match response.result with
  | some r =>
      match r.message with
      | some m => some m
      | none => firstChoiceMessage response
  | none => firstChoiceMessage response

/-- One turn of the transcript sent to the completion service. -/
inductive ChatMessage where
  | user (content : Str)
  | system (content : Str)
  | assistant (message : ClovaMessage)
  | tool (tool_call_id : Str) (content : Str)
deriving DecidableEq, Repr

/-- The external completion gateway, as the stream of successive results of
call_clova_function_calling (a parsed response, or a raised timeout or
transport error) together with the number of calls made so far. -/
structure Gateway where
  responses : Nat → Except Str ClovaResponse
  calls : Nat

/-- One invocation of call_clova_function_calling: consume the next scripted
result and bump the call counter. -/
def callGateway (gw : Gateway) : Except Str ClovaResponse × Gateway :=
  (gw.responses gw.calls, ⟨gw.responses, gw.calls + 1⟩)

/-- The dict returned by process_function_calling; keys the source omits in
a branch are modelled as none. -/
structure FCOutcome where
  success : Bool
  error : Option Str
  tool_results : List ToolResult
  final_response : Option Str
deriving DecidableEq, Repr

/-- process_function_calling of clova_function_calling.py: one completion
call, then at most one sequential pass of tool execution.  The local
transcript extension (messages.extend of the assistant turn and the
synthetic tool turns) has no observable effect outside the function in the
source — the dict it returns does not include it — so it is not modelled.
A raised gateway error is caught and reported as a failure with the error
text; a response without a usable message is the protocol-level failure
"Invalid API response". -/
def process_function_calling (jsonLoads : Str → Except Str ToolArgs)
    (tool_functions : ToolRegistry) (initial_messages : List ChatMessage)
    (feedback : Str) (gw : Gateway) : FCOutcome × Gateway :=
  let _messages := if feedback ≠ [] then
      initial_messages ++ [ChatMessage.user
        ("이전 응답에 대한 피드백: ".data ++ feedback ++
          "\n이 피드백을 반영하여 다시 응답해주세요.".data)]
    else initial_messages
  let r := callGateway gw
  let gw' := r.2
  match r.1 with
  | .error e => (⟨false, some e, [], none⟩, gw')
  | .ok response =>
    match extractMessage response with
    | none => (⟨false, some ("Invalid API response".data), [], none⟩, gw')
    | some message =>
      if message.toolCalls = none ∧ message.tool_calls = none then
        (⟨true, none, [], some (message.content.getD [])⟩, gw')
      else
        let tool_calls := message.toolCalls.getD (message.tool_calls.getD [])
        let tool_results := tool_calls.map (execute_tool jsonLoads tool_functions)
        let all_successful := tool_results.all (fun r => r.success)
        if all_successful then
          (⟨true, none, tool_results, none⟩, gw')
        else
          let failed_tools := tool_results.filter (fun r => !r.success)
          let error_messages := failed_tools.map
            (fun r => r.function_name ++ ": ".data ++ r.result)
          (⟨false,
            some ("도구 실행 실패: ".data ++ List.intercalate ("; ".data) error_messages),
            tool_results, none⟩, gw')

/-! ## Clarification node (nodes/ambiguous_query.py) -/

/-- The structured result of the model-assisted completeness analysis
analyze_information_with_llm, an external oracle. -/
structure InformationAnalysis where
  has_stock_name : Bool
  has_specific_date : Bool
  has_relative_time : Bool
  has_metrics : Bool
  has_conditions : Bool
  missing_information_type : Str
  information_completeness : Str
deriving DecidableEq, Repr

/-- analyze_ambiguity_type of ambiguous_query.py, given the completeness
analysis outcome: COMPLETE is an anomaly handled by self-clarification;
PARTIAL asks the user unless the missing date is resolvable from a detected
relative-time expression (or the missing type is not one of the three
askable kinds); everything else self-clarifies. -/
def analyze_ambiguity_type (analysis : InformationAnalysis) : Str :=
  let completeness := analysis.information_completeness
  let missing_type := analysis.missing_information_type
  if completeness = "COMPLETE".data then "SELF_CLARIFY".data
  else if completeness = "PARTIAL".data then
    if missing_type = "SPECIFIC_DATE".data ∧ analysis.has_relative_time then
      "SELF_CLARIFY".data
    else if missing_type ∈ ["STOCK_NAME".data, "SPECIFIC_DATE".data,
        "TIME_PERIOD".data] then
      "ASK_USER".data
    else "SELF_CLARIFY".data
  else "SELF_CLARIFY".data

/-- The parsed output of the clarification rewrite model call
clarify_vague_question, an external oracle; optional keys are read with
dict .get defaults. -/
structure ClarifiedQuestion where
  specific_question : Option Str
  start_date : Option Str
  end_date : Option Str
  market_scope : Option Str
  primary_criteria : Option Str
  secondary_criteria : Option Str
deriving DecidableEq, Repr

/-- clarify_question_node of ambiguous_query.py, with its three
model-assisted steps passed as oracles: the completeness analysis, the
generated follow-up question, and the rewritten query.  An empty query is
returned unchanged; ask-user sets the response and the terminal
ask_clarification category; self-clarify records the clarification info and
replaces the query in place. -/
def clarify_question_node (analysis : InformationAnalysis)
    (clarification_question : Str) (clarified : ClarifiedQuestion)
    (state : StockAgentState) : StockAgentState :=
  let query := state.query
  if query = [] then state
  else if analyze_ambiguity_type analysis = "ASK_USER".data then
    { state with
        response := clarification_question,
        query_category := "ask_clarification".data }
  else
    let original_query := query
    let specific_question := clarified.specific_question.getD query
    { state with
        clarification_info := some ⟨original_query, specific_question,
          clarified.start_date.getD [], clarified.end_date.getD [],
          clarified.market_scope.getD [], clarified.primary_criteria.getD [],
          clarified.secondary_criteria.getD []⟩,
        query := specific_question }

/-- ambiguous_query_with_path: after the clarification node, route to the
terminal ask-clarification node exactly when the node asked the user,
otherwise loop back to classification. -/
def ambiguous_query_with_path (state : StockAgentState) : Str :=
  if state.query_category = "ask_clarification".data then "ask_clarification".data
  else "classify_query".data

/-! ## Classification (nodes/classify_query.py and nodes/category.py) -/

/-- The QueryCategory enum values in declaration order, which is the
iteration order of QueryCategory._value2member_map_. -/
def category_values : List Str :=
  ["fetch_stock_data".data, "conditional_stock_data".data,
   "signal_stock_data".data, "ambiguous_query".data]

/-- Word characters for the regex word boundary; an ASCII approximation of
Python's unicode word class, exact on the all-ASCII category tokens. -/
def isWordChar (c : Char) : Bool := c.isAlphanum || c = '_'

/-- Whether a word boundary holds against the given adjacent character
(none at the ends of the searched text). -/
def boundaryOk (c : Option Char) : Bool :=
  match c with
  | none => true
  | some c => !isWordChar c

/-- Attempt to match one category token at the current position of the
response, case-insensitively, requiring word boundaries on both sides; on
success re.search's group(1) is the matched text verbatim from the
response, in its original casing. -/
def matchCategoryHere (prev : Option Char) (s : Str) (cat : Str) : Option Str :=
  if (lowerStr s).take cat.length = lowerStr cat ∧ boundaryOk prev ∧
      boundaryOk (s.drop cat.length).head? then
    some (s.take cat.length)
  else none

/-- One position of re.search with the alternation of all category tokens:
try each token in pattern order at this position. -/
def findCategoryAt (prev : Option Char) (s : Str) : Option Str :=
  category_values.findSome? (fun cat => matchCategoryHere prev s cat)

/-- Leftmost case-insensitive word-bounded occurrence of any category token,
modelling re.search over the alternation of the escaped tokens. -/
def regexSearchCategories : Option Char → Str → Option Str
  | _, [] => none
  | prev, c :: rest =>
      match findCategoryAt prev (c :: rest) with
      | some m => some m
      | none => regexSearchCategories (some c) rest

/-- The per-line fallback of extract_category_from_response: for each line
(stripped) that contains some category token case-insensitively, run the
word-bounded search on that line, returning its match if any. -/
def lineCategorySearch (lines : List Str) : Option Str :=
  lines.findSome? (fun line =>
    let line := stripStr line
    if category_values.any (fun cat => containsStr (lowerStr line) (lowerStr cat)) then
      regexSearchCategories none line
    else none)

/-- The whole-response containment fallback: the first category token whose
lowercase form occurs anywhere in the lowercased response, returned in its
canonical casing. -/
def wholeCategorySearch (response : Str) : Option Str :=
  category_values.findSome? (fun cat =>
    if containsStr (lowerStr response) (lowerStr cat) then some cat else none)

/-- extract_category_from_response of classify_query.py: empty responses
yield the empty string; otherwise, on the stripped response, an exact
word-bounded match is tried first, then the per-line search, then
whole-response containment, and the empty string when everything fails. -/
def extract_category_from_response (response : Str) : Str :=
  if response = [] then []
  else
    let response := stripStr response
    match regexSearchCategories none response with
    | some m => m
    | none =>
        match lineCategorySearch (response.splitOn '\n') with
        | some m => m
        | none =>
            match wholeCategorySearch response with
            | some m => m
            | none => []

/-- classify_query of classify_query.py, with the classifier's free-text
response passed as the model oracle (whichever of the two prompt chains the
taken branch would invoke).  The two quiz overrides come first; the
post-clarification pass validates against the category set without
ambiguous_query and falls back to fetch_stock_data; the first pass
validates against all four categories and falls back to ambiguous_query. -/
def classify_query (llm_category_response : Str) (state : StockAgentState) :
    StockAgentState :=
  if state.quiz_session_active then
    { state with query_category := "quiz_stock_data".data }
  else if containsStr state.query ("퀴즈도전".data) then
    { state with query_category := "quiz_stock_data".data }
  else if state.clarification_info ≠ none then
    let category_name := extract_category_from_response llm_category_response
    let valid_categories := ["fetch_stock_data".data, "conditional_stock_data".data,
      "signal_stock_data".data]
    if category_name ∉ valid_categories then
      { state with query_category := "fetch_stock_data".data }
    else
      { state with query_category := category_name }
  else
    let category_name := extract_category_from_response llm_category_response
    let valid_categories := ["fetch_stock_data".data, "conditional_stock_data".data,
      "signal_stock_data".data, "ambiguous_query".data]
    if category_name ∉ valid_categories then
      { state with query_category := "ambiguous_query".data }
    else
      { state with query_category := category_name }

/-! ## Quiz node (nodes/quiz_stock_data.py) -/

/-- Decimal rendering of a number interpolated into an f-string. -/
def natToStr (n : Nat) : Str := (toString n).data

/-- The dict returned by QuizAnswerChecker.check_answer (model-assisted,
external); only the keys the quiz node reads are modelled. -/
structure AnswerCheckResult where
  success : Bool
  is_correct : Bool
deriving DecidableEq, Repr

/-- The reward_info sub-dict of the answer info package, with its
optionally present keys. -/
structure RewardPackage where
  stock_name : Option Str
  amount : Option Nat
deriving DecidableEq, Repr

/-- The info package built by the external
quiz_info_provider.generate_answer_package; only the reward_info key is
read structurally by the quiz node, the rest is consumed by the opaque
message formatter. -/
structure InfoPackage where
  reward_info : Option RewardPackage
deriving DecidableEq, Repr

/-- The dict returned by the external news-based hint lookup
naver_news_search_tool.generate_news_based_hint. -/
structure NewsHintResult where
  success : Bool
  hint_message : Str
deriving DecidableEq, Repr

/-- External collaborators of the quiz node, passed as oracles: the answer
checker, the hint generators, the answer info package, the result-message
formatter, and the durable-save outcome. -/
structure QuizOracles where
  check_answer : QuizData → Str → AnswerCheckResult
  get_hint : QuizData → Str
  generate_answer_package : QuizData → Str → InfoPackage
  news_hint : QuizData → NewsHintResult
  format_answer_result : InfoPackage → Str
  save : SaveOutcome

/-- The fixed help-seeking phrase list of _handle_user_answer, matched
against the lowercased user input. -/
def hint_request_phrases : List Str :=
  ["힌트".data, "hint".data, "도움".data, "help".data, "힌트 주세요".data,
   "힌트주세요".data, "힌트 좀".data, "힌트좀".data, "도움 주세요".data,
   "도움주세요".data, "도와주세요".data, "도와줘".data, "모르겠어".data,
   "모르겠어요".data, "모르겠다".data, "몰라".data, "몰라요".data,
   "어려워".data, "어려워요".data, "어렵다".data, "어려운데".data,
   "잘 모르겠어".data, "잘 모르겠어요".data, "잘 모르겠네".data,
   "헷갈려".data, "헷갈려요".data, "헷갈린다".data, "애매해".data,
   "애매해요".data, "뭐지".data, "뭐야".data, "뭔지".data, "뭔가요".data]

/-- The _combine_hints helper of quiz_stock_data.py: only the news-based
hint is shown (with a newspaper-emoji fallback marker when the lookup
failed), followed by the fixed footer. -/
def _combine_hints (_traditional_hint : Str) (news_hint_result : NewsHintResult) :
    Str :=
  let message_parts : List Str :=
    (if news_hint_result.success then
      (if news_hint_result.hint_message ≠ [] then
        [news_hint_result.hint_message, []]
      else [])
    else
      (if news_hint_result.hint_message ≠ [] then
        ["📰 ".data ++ news_hint_result.hint_message, []]
      else [])) ++
    ["---".data, "퀴즈는 계속 진행 중입니다. 답변을 입력해주세요!".data]
  List.intercalate ("\n".data) message_parts

/-- The wrong-answer-plus-hint f-string of _handle_wrong_answer. -/
def wrong_answer_message_text (user_answer hint_text : Str) : Str :=
  "**오답입니다!**\n\n입력하신 답변: ".data ++ user_answer ++
  "\n정답은 다른 선택지입니다.\n\n💡 **힌트**: ".data ++ hint_text ++
  "\n\n다시 답변해보세요!".data

/-- The _generate_error_response helper: store a generic error payload
under state["data"]. -/
def _generate_error_response (state : StockAgentState) (error_message : Str) :
    StockAgentState :=
  { state with data := some ⟨"quiz".data,
      [.errorEntry error_message
        ("다시 \x27주식퀴즈도전\x27으로 시도해보세요.".data)],
      1, "퀴즈 오류 발생".data, "quiz_error".data⟩ }

/-- The _handle_hint_request helper: set the hint-used flag, combine the
traditional and the news-based hints, and answer with phase unchanged. -/
def _handle_hint_request (o : QuizOracles) (state : StockAgentState)
    (quiz_data : QuizData) (db : QuizDB) : StockAgentState × QuizDB :=
  let state := { state with quiz_hint_used := true }
  let traditional_hint := o.get_hint quiz_data
  let news_hint_result := o.news_hint quiz_data
  let hint_message := _combine_hints traditional_hint news_hint_result
  ({ state with data := some ⟨"quiz".data,
      [.hintProvided hint_message true],
      1, "퀴즈 #".data ++ natToStr quiz_data.id ++ " 힌트 제공 (기존 + 뉴스)".data,
      "quiz_hint".data⟩ }, db)

/-- The _handle_wrong_answer helper: revert the phase to asking (the quiz
continues with the same question), build the wrong-answer-plus-hint
message, and leave durable storage untouched. -/
def _handle_wrong_answer (o : QuizOracles) (state : StockAgentState)
    (quiz_data : QuizData) (user_answer : Str) (db : QuizDB) :
    StockAgentState × QuizDB :=
  let state := QuizSessionManager.update_session_phase state .ASKING
  let hint_text := o.get_hint quiz_data
  let msg := wrong_answer_message_text user_answer hint_text
  ({ state with data := some ⟨"quiz".data,
      [.wrongAnswerWithHint msg user_answer hint_text true],
      1, "퀴즈 #".data ++ natToStr quiz_data.id ++ " 오답 + 힌트 제공".data,
      "quiz_wrong_answer".data⟩ }, db)

/-- The _handle_correct_answer helper: build the info package, advance the
phase to completed, then end the session with save_to_db set, so that one
history row is written, and store the formatted answer payload. -/
def _handle_correct_answer (o : QuizOracles) (state : StockAgentState)
    (quiz_data : QuizData) (user_answer : Str) (db : QuizDB) :
    StockAgentState × QuizDB :=
  let request_id := state.request_id
  let info_package := o.generate_answer_package quiz_data user_answer
  let state := QuizSessionManager.update_session_phase state .COMPLETED
  let reward_info := info_package.reward_info
  let stock_name :=
    (reward_info.bind RewardPackage.stock_name).getD quiz_data.correct_company
  let reward_amount := (reward_info.bind RewardPackage.amount).getD 0
  let p := QuizSessionManager.end_session o.save
    ⟨true, user_answer, true, request_id, some ⟨stock_name, reward_amount⟩⟩
    state db
  let result_message := o.format_answer_result info_package
  ({ p.1 with data := some ⟨"quiz".data,
      [.answerChecking result_message true true],
      1, "퀴즈 정답: ".data ++ user_answer, "quiz_answer".data⟩ }, p.2)

/-- The _handle_user_answer helper: a missing active question tears the
session down with an error; a help-seeking phrase yields a hint; otherwise
the phase advances to processing and the checker's verdict selects the
correct- or wrong-answer handler (a checker failure produces an error
response, leaving the session as is). -/
def _handle_user_answer (o : QuizOracles) (state : StockAgentState)
    (user_answer : Str) (db : QuizDB) : StockAgentState × QuizDB :=
  match state.quiz_current_question with
  | none =>
      let p := QuizSessionManager.end_session o.save
        QuizSessionManager.end_session_default_args state db
      (_generate_error_response p.1 ("활성화된 퀴즈가 없습니다.".data), p.2)
  | some current_quiz =>
      if lowerStr user_answer ∈ hint_request_phrases then
        _handle_hint_request o state current_quiz db
      else
        let state := QuizSessionManager.update_session_phase state .PROCESSING
        let answer_result := o.check_answer current_quiz user_answer
        if ¬ answer_result.success then
          (_generate_error_response state ("답변 검증 중 오류가 발생했습니다.".data), db)
        else if answer_result.is_correct then
          _handle_correct_answer o state current_quiz user_answer db
        else
          _handle_wrong_answer o state current_quiz user_answer db

/-- The _handle_session_completion helper: end the session (without a
durable write) and report completion. -/
def _handle_session_completion (o : QuizOracles) (state : StockAgentState)
    (db : QuizDB) : StockAgentState × QuizDB :=
  let p := QuizSessionManager.end_session o.save
    QuizSessionManager.end_session_default_args state db
  ({ p.1 with data := some ⟨"quiz".data,
      [.sessionCompleted
        ("퀴즈가 완료되었습니다. \x27주식퀴즈도전\x27으로 새로운 퀴즈를 시작할 수 있습니다!".data)
        true],
      1, "퀴즈 세션 완료".data, "quiz_completion".data⟩ }, p.2)

/-- The quiz_stock_data node: strip the query, sweep an expired session,
then dispatch on the current phase.  The inactive branch (starting a new
quiz, which reads and parses the question file from disk) is abstracted as
the start_branch oracle; the other branches are modelled in full, with an
unrecognized phase treated as a fatal quiz error that tears the session
down. -/
def quiz_stock_data (o : QuizOracles) (now : Nat)
    (start_branch : StockAgentState → Str → QuizDB → StockAgentState × QuizDB)
    (state : StockAgentState) (db : QuizDB) : StockAgentState × QuizDB :=
  let query := stripStr state.query
  let p := QuizSessionManager.cleanup_expired_session now o.save state db
  let state := p.1
  let db := p.2
  let current_phase := state.quiz_session_phase
  if current_phase = QuizSessionPhase.INACTIVE.value then
    start_branch state query db
  else if current_phase = QuizSessionPhase.ASKING.value then
    _handle_user_answer o state query db
  else if current_phase = QuizSessionPhase.PROCESSING.value then
    let state := QuizSessionManager.update_session_phase state .COMPLETED
    _handle_session_completion o state db
  else if current_phase = QuizSessionPhase.COMPLETED.value then
    _handle_session_completion o state db
  else
    let p2 := QuizSessionManager.end_session o.save
      QuizSessionManager.end_session_default_args state db
    (_generate_error_response p2.1 ("퀴즈 세션 상태 오류가 발생했습니다.".data), p2.2)

/-! ## Derived notions and concrete instances used by the theorems -/

/-- A conversation state whose quiz session is active in phase completed. -/
def completedActiveState : StockAgentState :=
  { default_stock_agent_state with
      quiz_session_active := true,
      quiz_session_phase := QuizSessionPhase.COMPLETED.value }

/-- The allow-list of the quiz sub-state-machine, as explicit pairs of the
current phase string and the target phase. -/
def quiz_transition_allowlist : List (Str × QuizSessionPhase) :=
  [("inactive".data, QuizSessionPhase.ASKING),
   ("asking".data, QuizSessionPhase.PROCESSING),
   ("asking".data, QuizSessionPhase.COMPLETED),
   ("processing".data, QuizSessionPhase.COMPLETED),
   ("completed".data, QuizSessionPhase.INACTIVE)]

/-- The self-clarification result of clarify_question_node on a non-empty
query: the clarification record is filled in from the rewrite oracle and
the query is replaced in place (this is the else branch of the node,
restated once so the decision-rule theorem can name it). -/
def selfClarifyResult (clarified : ClarifiedQuestion) (state : StockAgentState) :
    StockAgentState :=
  let specific_question := clarified.specific_question.getD state.query
  { state with
      clarification_info := some ⟨state.query, specific_question,
        clarified.start_date.getD [], clarified.end_date.getD [],
        clarified.market_scope.getD [], clarified.primary_criteria.getD [],
        clarified.secondary_criteria.getD []⟩,
      query := specific_question }

/-- A store of five fresh sessions (timestamps 0..4 seconds), at capacity. -/
def fiveFreshStore : SessionStore :=
  [⟨"S1".data, default_stock_agent_state, 0⟩,
   ⟨"S2".data, default_stock_agent_state, 1⟩,
   ⟨"S3".data, default_stock_agent_state, 2⟩,
   ⟨"S4".data, default_stock_agent_state, 3⟩,
   ⟨"S5".data, default_stock_agent_state, 4⟩]

/-- A store of six fresh sessions (timestamps 0..5 seconds), one over
capacity, with none idle and no quiz active. -/
def sixFreshStore : SessionStore :=
  [⟨"S1".data, default_stock_agent_state, 0⟩,
   ⟨"S2".data, default_stock_agent_state, 1⟩,
   ⟨"S3".data, default_stock_agent_state, 2⟩,
   ⟨"S4".data, default_stock_agent_state, 3⟩,
   ⟨"S5".data, default_stock_agent_state, 4⟩,
   ⟨"S6".data, default_stock_agent_state, 5⟩]

/-- A registry with one working and one raising tool, used by the
aggregation witness. -/
def witnessRegistry : ToolRegistry :=
  [("alpha".data, fun _ => Except.ok ("A-ok".data)),
   ("beta".data, fun _ => Except.error ("boom".data))]

/-- Three requested tool calls, of which exactly the second fails. -/
def witnessToolCalls : List ToolCall :=
  [⟨"1".data, "alpha".data, ArgPayload.structured []⟩,
   ⟨"2".data, "beta".data, ArgPayload.structured []⟩,
   ⟨"3".data, "alpha".data, ArgPayload.structured []⟩]

/-- A gateway whose single response requests the three witness tool calls. -/
def witnessGateway : Gateway :=
  ⟨fun _ => Except.ok ⟨some ⟨some ⟨none, some witnessToolCalls, none⟩⟩, none⟩, 0⟩

/-- The concrete quiz question of the correctness-loop witness. -/
def witnessQuiz : QuizData :=
  ⟨7, "시가총액 1위 기업은?".data, "2".data, "삼성전자".data⟩

/-- Answer-path oracles for the correctness-loop witness: option "2" is
checked correct, anything else is a confidently wrong answer; the reward
package grants one share. -/
def witnessQuizOracles : QuizOracles :=
  ⟨fun _ a => if a = "2".data then ⟨true, true⟩ else ⟨true, false⟩,
   fun _ => "대형 전자 기업입니다.".data,
   fun _ _ => ⟨some ⟨some ("삼성전자".data), some 1⟩⟩,
   fun _ => ⟨true, "뉴스 기반 힌트".data⟩,
   fun _ => "정답입니다!".data,
   SaveOutcome.ok⟩

/-- An active asking-phase session currently answering "3" (incorrect) on
the witness question. -/
def witnessQuizState : StockAgentState :=
  { default_stock_agent_state with
      query := "3".data,
      request_id := "user-1".data,
      quiz_session_active := true,
      quiz_current_question := some witnessQuiz,
      quiz_session_start_time := some 0,
      quiz_session_phase := "asking".data }

/-! ## Theorems -/

/-- Any element of a list also occurs in the list interspersed with a
separator. -/
theorem mem_intersperse_of_mem {α : Type} {sep x : α} {l : List α}
    (h : x ∈ l) : x ∈ l.intersperse sep := by
  induction l with
  | nil => cases h
  | cons a t ih =>
      cases t with
      | nil => simpa using h
      | cons b t' =>
          rw [List.intersperse_cons₂]
          rcases List.mem_cons.mp h with rfl | h'
          · exact List.mem_cons_self _ _
          · exact List.mem_cons_of_mem _ (List.mem_cons_of_mem _ (ih h'))

/-- Any piece of an intercalation is an infix of the whole. -/
theorem infix_intercalate_of_mem {sep m : Str} {L : List Str} (h : m ∈ L) :
    m <:+: List.intercalate sep L := by
  have h1 : m ∈ L.intersperse sep := mem_intersperse_of_mem h
  simpa [List.intercalate] using List.infix_of_mem_flatten h1

/-- An infix of a list is an infix of any left-extension of it. -/
theorem infix_append_left {α : Type} (s : List α) {m t : List α}
    (h : m <:+: t) : m <:+: s ++ t := by
  obtain ⟨u, v, rfl⟩ := h
  exact ⟨s ++ u, v, by simp⟩

/-- C10: quiz teardown is total and idempotent.  Whatever the conversation
state, the argument combination, and the behaviour of the durable save call
(success, returned failure, or raised exception), end_session leaves the
quiz sub-record fully reset — active false, session id empty, start
timestamp empty, current question empty, hint-used false, phase inactive —
and running end_session a second time, with any arguments and any save
behaviour, returns exactly the state and durable storage of the first run. -/
theorem end_session_reset_and_idempotent (save₁ save₂ : SaveOutcome)
    (args₁ args₂ : QuizSessionManager.EndSessionArgs)
    (state : StockAgentState) (db : QuizDB) :
    ((QuizSessionManager.end_session save₁ args₁ state db).1.quiz_session_active = false ∧
     (QuizSessionManager.end_session save₁ args₁ state db).1.quiz_session_id = [] ∧
     (QuizSessionManager.end_session save₁ args₁ state db).1.quiz_session_start_time = none ∧
     (QuizSessionManager.end_session save₁ args₁ state db).1.quiz_current_question = none ∧
     (QuizSessionManager.end_session save₁ args₁ state db).1.quiz_hint_used = false ∧
     (QuizSessionManager.end_session save₁ args₁ state db).1.quiz_session_phase
       = QuizSessionPhase.INACTIVE.value) ∧
    QuizSessionManager.end_session save₂ args₂
        (QuizSessionManager.end_session save₁ args₁ state db).1
        (QuizSessionManager.end_session save₁ args₁ state db).2
      = QuizSessionManager.end_session save₁ args₁ state db := by
  refine ⟨⟨rfl, rfl, rfl, rfl, rfl, rfl⟩, ?_⟩
  rcases args₂ with ⟨s₂, u₂, c₂, r₂, w₂⟩
  cases s₂ <;> rfl

/-- C2 counterexample: the attempted transition completed → asking is
outside the allow-list (validate_session_transition reports it invalid),
yet the sub-state-machine's phase update applies it — the transition
succeeds — so transitions outside the table are not rejected. -/
theorem quiz_transition_allowlist_not_enforced :
    QuizSessionManager.validate_session_transition completedActiveState
        QuizSessionPhase.ASKING = false ∧
    (QuizSessionManager.update_session_phase completedActiveState
        QuizSessionPhase.ASKING).quiz_session_phase = "asking".data := by
  constructor <;> decide

/-- Membership in the allow-list dict coincides with the explicit pair
table, for every current-phase string (unknown phases allow nothing). -/
theorem valid_transition_targets_spec (cp : Str) (t : QuizSessionPhase) :
    t.value ∈ QuizSessionManager.valid_transition_targets cp ↔
      (cp, t) ∈ quiz_transition_allowlist := by
  by_cases h1 : cp = "inactive".data
  · subst h1; cases t <;> decide
  · by_cases h2 : cp = "asking".data
    · subst h2; cases t <;> decide
    · by_cases h3 : cp = "processing".data
      · subst h3; cases t <;> decide
      · by_cases h4 : cp = "completed".data
        · subst h4; cases t <;> decide
        · simp [QuizSessionManager.valid_transition_targets,
            QuizSessionPhase.value, quiz_transition_allowlist, h1, h2, h3, h4]

/-- C2 amended: the allow-list {inactive→asking, asking→processing,
asking→completed, processing→completed, completed→inactive} is exactly what
validate_session_transition reports as valid (reporting, not crashing, on
anything else) — but that check is advisory and never consulted by the
phase update: update_session_phase applies any requested transition
whenever a session is active (as the source itself does for the
processing→asking wrong-answer loop), and is a logged no-op exactly when no
session is active. -/
theorem quiz_transition_allowlist_amended (state : StockAgentState)
    (target : QuizSessionPhase) :
    (QuizSessionManager.validate_session_transition state target = true ↔
      (state.quiz_session_phase, target) ∈ quiz_transition_allowlist) ∧
    (state.quiz_session_active = true →
      (QuizSessionManager.update_session_phase state target).quiz_session_phase
        = target.value) ∧
    (state.quiz_session_active = false →
      QuizSessionManager.update_session_phase state target = state) := by
  refine ⟨?_, ?_, ?_⟩
  · rw [QuizSessionManager.validate_session_transition, decide_eq_true_iff]
    exact valid_transition_targets_spec state.quiz_session_phase target
  · intro h
    simp [QuizSessionManager.update_session_phase,
      QuizSessionManager.is_session_active, h]
  · intro h
    simp [QuizSessionManager.update_session_phase,
      QuizSessionManager.is_session_active, h]

/-- Witness for the amended C2 theorem at concrete inputs: an active
session accepts the phase update, an inactive one ignores it. -/
theorem quiz_transition_allowlist_amended_witness :
    (QuizSessionManager.update_session_phase
        { default_stock_agent_state with quiz_session_active := true }
        QuizSessionPhase.ASKING).quiz_session_phase
      = QuizSessionPhase.ASKING.value ∧
    QuizSessionManager.update_session_phase default_stock_agent_state
        QuizSessionPhase.ASKING
      = default_stock_agent_state :=
  ⟨(quiz_transition_allowlist_amended
      { default_stock_agent_state with quiz_session_active := true }
      QuizSessionPhase.ASKING).2.1 rfl,
   (quiz_transition_allowlist_amended default_stock_agent_state
      QuizSessionPhase.ASKING).2.2 rfl⟩

/-- C7: the clarification decision rule.  For a non-empty query, COMPLETE
(the routing anomaly) and AMBIGUOUS self-clarify; PARTIAL with missing type
STOCK_NAME, SPECIFIC_DATE or TIME_PERIOD routes to ask_user — storing the
follow-up question as the response and the terminal ask_clarification
category, which the router path function sends to the terminal node —
except that SPECIFIC_DATE with a detected relative-time expression
self-clarifies instead. -/
theorem clarification_decision_rule (a : InformationAnalysis) (cq : Str)
    (cl : ClarifiedQuestion) (state : StockAgentState)
    (hq : state.query ≠ []) :
    ((a.information_completeness = "COMPLETE".data ∨
      a.information_completeness = "AMBIGUOUS".data) →
      clarify_question_node a cq cl state = selfClarifyResult cl state) ∧
    (a.information_completeness = "PARTIAL".data →
      ((a.missing_information_type ∈ ["STOCK_NAME".data, "SPECIFIC_DATE".data,
          "TIME_PERIOD".data] ∧
        ¬ (a.missing_information_type = "SPECIFIC_DATE".data ∧
           a.has_relative_time = true)) →
        clarify_question_node a cq cl state
          = { state with
                response := cq,
                query_category := "ask_clarification".data } ∧
        ambiguous_query_with_path (clarify_question_node a cq cl state)
          = "ask_clarification".data) ∧
      ((a.missing_information_type = "SPECIFIC_DATE".data ∧
        a.has_relative_time = true) →
        clarify_question_node a cq cl state = selfClarifyResult cl state)) := by
  refine ⟨?_, fun hp => ⟨?_, ?_⟩⟩
  · intro hc
    rcases hc with hc | hc <;>
      simp [clarify_question_node, analyze_ambiguity_type, hc, hq,
        selfClarifyResult]
  · rintro ⟨hm, hnrel⟩
    have hask : analyze_ambiguity_type a = "ASK_USER".data := by
      simp only [analyze_ambiguity_type]
      rw [hp, if_neg (by decide), if_pos rfl, if_neg hnrel, if_pos hm]
    constructor
    · simp [clarify_question_node, hask, hq]
    · simp [clarify_question_node, hask, hq, ambiguous_query_with_path]
  · rintro ⟨hm, hrel⟩
    have hself : analyze_ambiguity_type a = "SELF_CLARIFY".data := by
      simp only [analyze_ambiguity_type]
      rw [hp, if_neg (by decide), if_pos rfl, if_pos ⟨hm, hrel⟩]
    simp [clarify_question_node, hself, hq, selfClarifyResult]

/-- Witness for the C7 decision rule on a concrete vague query: an
AMBIGUOUS analysis self-clarifies, a PARTIAL analysis missing the stock
name asks the user, and a PARTIAL analysis missing a specific date with a
relative-time expression self-clarifies. -/
theorem clarification_decision_rule_witness :
    clarify_question_node
        ⟨false, false, false, false, false, "NONE".data, "AMBIGUOUS".data⟩
        ("어떤 종목이 궁금하신가요?".data)
        ⟨some ("삼성전자 오늘 종가".data), none, none, none, none, none⟩
        { default_stock_agent_state with query := "요즘 분위기 좋은 주식있어?".data }
      = selfClarifyResult
          ⟨some ("삼성전자 오늘 종가".data), none, none, none, none, none⟩
          { default_stock_agent_state with query := "요즘 분위기 좋은 주식있어?".data } ∧
    (clarify_question_node
        ⟨false, true, false, false, false, "STOCK_NAME".data, "PARTIAL".data⟩
        ("어떤 종목이 궁금하신가요?".data)
        ⟨some ("삼성전자 오늘 종가".data), none, none, none, none, none⟩
        { default_stock_agent_state with query := "오늘 종가 알려줘".data }).query_category
      = "ask_clarification".data ∧
    clarify_question_node
        ⟨true, false, true, false, false, "SPECIFIC_DATE".data, "PARTIAL".data⟩
        ("언제 날짜가 궁금하신가요?".data)
        ⟨some ("삼성전자 어제 종가".data), none, none, none, none, none⟩
        { default_stock_agent_state with query := "삼성전자 어제 종가".data }
      = selfClarifyResult
          ⟨some ("삼성전자 어제 종가".data), none, none, none, none, none⟩
          { default_stock_agent_state with query := "삼성전자 어제 종가".data } := by
  refine ⟨?_, ?_, ?_⟩
  · exact (clarification_decision_rule
      ⟨false, false, false, false, false, "NONE".data, "AMBIGUOUS".data⟩
      ("어떤 종목이 궁금하신가요?".data)
      ⟨some ("삼성전자 오늘 종가".data), none, none, none, none, none⟩
      { default_stock_agent_state with query := "요즘 분위기 좋은 주식있어?".data }
      (by decide)).1 (Or.inr rfl)
  · have h := (((clarification_decision_rule
      ⟨false, true, false, false, false, "STOCK_NAME".data, "PARTIAL".data⟩
      ("어떤 종목이 궁금하신가요?".data)
      ⟨some ("삼성전자 오늘 종가".data), none, none, none, none, none⟩
      { default_stock_agent_state with query := "오늘 종가 알려줘".data }
      (by decide)).2 rfl).1 ⟨by decide, by decide⟩).1
    rw [h]
  · exact ((clarification_decision_rule
      ⟨true, false, true, false, false, "SPECIFIC_DATE".data, "PARTIAL".data⟩
      ("언제 날짜가 궁금하신가요?".data)
      ⟨some ("삼성전자 어제 종가".data), none, none, none, none, none⟩
      { default_stock_agent_state with query := "삼성전자 어제 종가".data }
      (by decide)).2 rfl).2 ⟨rfl, rfl⟩

/-- C5 counterexample: a completion response whose message object exists
but carries neither a tool-call list nor content is NOT reported as a
protocol-level failure — the protocol reports success, with an empty direct
answer, an empty tool-result list and no error. -/
theorem contentless_message_reported_success :
    (process_function_calling (fun _ => Except.error []) [] [] []
        ⟨fun _ => Except.ok ⟨some ⟨some ⟨none, none, none⟩⟩, none⟩, 0⟩).1
      = ⟨true, none, [], some []⟩ := rfl

/-- C5 amended: the protocol-level "Invalid API response" failure — an
error outcome with an empty tool-result list, distinct in shape from a
tool-execution failure, which carries the per-tool results — is raised
exactly when the response carries no usable message envelope (result with a
message absent, and choices absent or empty).  It is reported immediately:
no tool is invoked (the outcome does not depend on the registry at all) and
no second completion call is made.  A response whose message exists but
lacks both tool-call keys and content is instead reported as success with
an empty direct answer. -/
theorem malformed_response_protocol_failure
    (jsonLoads : Str → Except Str ToolArgs) (tools₁ tools₂ : ToolRegistry)
    (msgs : List ChatMessage) (fb : Str) (gw : Gateway) (resp : ClovaResponse)
    (hres : gw.responses gw.calls = Except.ok resp)
    (hmsg : extractMessage resp = none) :
    (process_function_calling jsonLoads tools₁ msgs fb gw).1
      = ⟨false, some ("Invalid API response".data), [], none⟩ ∧
    process_function_calling jsonLoads tools₁ msgs fb gw
      = process_function_calling jsonLoads tools₂ msgs fb gw ∧
    (process_function_calling jsonLoads tools₁ msgs fb gw).2.calls
      = gw.calls + 1 := by
  refine ⟨?_, ?_, ?_⟩ <;>
    simp [process_function_calling, callGateway, hres, hmsg]

/-- Witness for the amended C5 theorem: a response with an empty choices
list (falsy in the source) and no result message is the protocol-level
failure, reported without consulting the tool registry and after exactly
one completion call. -/
theorem malformed_response_protocol_failure_witness :
    (process_function_calling (fun _ => Except.error []) [] [] []
        ⟨fun _ => Except.ok ⟨none, some []⟩, 0⟩).1
      = ⟨false, some ("Invalid API response".data), [], none⟩ ∧
    process_function_calling (fun _ => Except.error []) [] [] []
        ⟨fun _ => Except.ok ⟨none, some []⟩, 0⟩
      = process_function_calling (fun _ => Except.error [])
          [([], fun _ => Except.ok [])] [] []
          ⟨fun _ => Except.ok ⟨none, some []⟩, 0⟩ ∧
    (process_function_calling (fun _ => Except.error []) [] [] []
        ⟨fun _ => Except.ok ⟨none, some []⟩, 0⟩).2.calls = 0 + 1 :=
  malformed_response_protocol_failure (fun _ => Except.error []) []
    [([], fun _ => Except.ok [])] [] []
    ⟨fun _ => Except.ok ⟨none, some []⟩, 0⟩ ⟨none, some []⟩ rfl rfl

/-- C4: for every input transcript, feedback, registry and gateway
behaviour, the tool-calling protocol makes exactly one completion call; and
whenever the returned message contains no tool-call request (neither
tool-call key present) it reports success with the message's direct text
answer and an empty tool-result list. -/
theorem single_completion_round (jsonLoads : Str → Except Str ToolArgs)
    (tools : ToolRegistry) (msgs : List ChatMessage) (fb : Str) (gw : Gateway) :
    (process_function_calling jsonLoads tools msgs fb gw).2.calls = gw.calls + 1 ∧
    (∀ resp m, gw.responses gw.calls = Except.ok resp →
      extractMessage resp = some m →
      m.toolCalls = none → m.tool_calls = none →
      (process_function_calling jsonLoads tools msgs fb gw).1
        = ⟨true, none, [], some (m.content.getD [])⟩) := by
  constructor
  · rw [process_function_calling]
    cases hres : gw.responses gw.calls with
    | error e => simp [callGateway, hres]
    | ok resp =>
        cases hmsg : extractMessage resp with
        | none => simp [callGateway, hres, hmsg]
        | some m =>
            by_cases hnc : m.toolCalls = none ∧ m.tool_calls = none
            · simp [callGateway, hres, hmsg, hnc]
            · simp only [callGateway, hres, hmsg, if_neg hnc]
              split <;> rfl
  · intro resp m hres hmsg h1 h2
    simp [process_function_calling, callGateway, hres, hmsg, h1, h2]

/-- Witness for C4 at a concrete gateway whose single response is a direct
text answer: one call is made and the answer is passed through with an
empty tool-result list. -/
theorem single_completion_round_witness :
    (process_function_calling (fun _ => Except.error []) [] [] []
        ⟨fun _ => Except.ok ⟨some ⟨some ⟨some ("안녕하세요".data), none, none⟩⟩, none⟩, 0⟩).2.calls
      = 0 + 1 ∧
    (process_function_calling (fun _ => Except.error []) [] [] []
        ⟨fun _ => Except.ok ⟨some ⟨some ⟨some ("안녕하세요".data), none, none⟩⟩, none⟩, 0⟩).1
      = ⟨true, none, [], some ("안녕하세요".data)⟩ :=
  ⟨(single_completion_round (fun _ => Except.error []) [] [] []
      ⟨fun _ => Except.ok ⟨some ⟨some ⟨some ("안녕하세요".data), none, none⟩⟩, none⟩, 0⟩).1,
   (single_completion_round (fun _ => Except.error []) [] [] []
      ⟨fun _ => Except.ok ⟨some ⟨some ⟨some ("안녕하세요".data), none, none⟩⟩, none⟩, 0⟩).2
     ⟨some ⟨some ⟨some ("안녕하세요".data), none, none⟩⟩, none⟩
     ⟨some ("안녕하세요".data), none, none⟩ rfl rfl rfl rfl⟩

/-- C3: tool-round aggregation.  When the completion response requests a
batch of tool calls, the protocol executes them all in order: the reported
result list is exactly the per-call execution results (so successful calls
remain present and marked successful even when siblings fail), the round's
overall success flag is the conjunction of the per-call success flags, and
when at least one call fails the aggregate error message contains
"tool name: result" for every failed call. -/
theorem tool_round_aggregation (jsonLoads : Str → Except Str ToolArgs)
    (tools : ToolRegistry) (msgs : List ChatMessage) (fb : Str) (gw : Gateway)
    (resp : ClovaResponse) (m : ClovaMessage) (tcs : List ToolCall)
    (hres : gw.responses gw.calls = Except.ok resp)
    (hmsg : extractMessage resp = some m)
    (htc : m.toolCalls = some tcs) :
    (process_function_calling jsonLoads tools msgs fb gw).1.tool_results
      = tcs.map (execute_tool jsonLoads tools) ∧
    ((process_function_calling jsonLoads tools msgs fb gw).1.success = true ↔
      ∀ r ∈ tcs.map (execute_tool jsonLoads tools), r.success = true) ∧
    ((∃ r ∈ tcs.map (execute_tool jsonLoads tools), r.success = false) →
      ∃ err, (process_function_calling jsonLoads tools msgs fb gw).1.error = some err ∧
        ∀ r ∈ tcs.map (execute_tool jsonLoads tools), r.success = false →
          (r.function_name ++ ": ".data ++ r.result) <:+: err) := by
  have hout : (process_function_calling jsonLoads tools msgs fb gw).1 =
      if (tcs.map (execute_tool jsonLoads tools)).all (fun r => r.success) then
        (⟨true, none, tcs.map (execute_tool jsonLoads tools), none⟩ : FCOutcome)
      else
        ⟨false, some ("도구 실행 실패: ".data ++ List.intercalate ("; ".data)
            (((tcs.map (execute_tool jsonLoads tools)).filter (fun r => !r.success)).map
              (fun r => r.function_name ++ ": ".data ++ r.result))),
          tcs.map (execute_tool jsonLoads tools), none⟩ := by
    simp only [process_function_calling, callGateway, hres, hmsg, htc]
    simp
    split <;> rfl
  refine ⟨?_, ?_, ?_⟩
  · rw [hout]; split <;> rfl
  · rw [hout]
    by_cases hall : (tcs.map (execute_tool jsonLoads tools)).all (fun r => r.success) = true
    · rw [if_pos hall]
      exact iff_of_true rfl (List.all_eq_true.mp hall)
    · rw [if_neg hall]
      exact iff_of_false (by simp) (fun h => hall (List.all_eq_true.mpr h))
  · rintro ⟨r0, hr0, hr0f⟩
    have hall : ¬ ((tcs.map (execute_tool jsonLoads tools)).all (fun r => r.success) = true) := by
      intro h
      have := List.all_eq_true.mp h r0 hr0
      simp [hr0f] at this
    rw [hout, if_neg hall]
    refine ⟨_, rfl, ?_⟩
    intro r hr hrf
    have hmem : (r.function_name ++ ": ".data ++ r.result) ∈
        ((tcs.map (execute_tool jsonLoads tools)).filter (fun r => !r.success)).map
          (fun r => r.function_name ++ ": ".data ++ r.result) :=
      List.mem_map_of_mem _ (List.mem_filter.mpr ⟨hr, by simp [hrf]⟩)
    exact infix_append_left _ (infix_intercalate_of_mem hmem)

/-- Witness for C3: three tool calls of which exactly the second fails —
the round reports failure, all three results (the two successes included)
are present, and the aggregate message contains the failing tool's name and
error text. -/
theorem tool_round_aggregation_witness :
    (process_function_calling (fun _ => Except.error []) witnessRegistry [] []
        witnessGateway).1.tool_results
      = witnessToolCalls.map
          (execute_tool (fun _ => Except.error []) witnessRegistry) ∧
    (process_function_calling (fun _ => Except.error []) witnessRegistry [] []
        witnessGateway).1.success = false ∧
    (∃ err, (process_function_calling (fun _ => Except.error []) witnessRegistry [] []
        witnessGateway).1.error = some err ∧
      ("beta: 도구 실행 중 오류: boom".data) <:+: err) := by
  have h := tool_round_aggregation (fun _ => Except.error []) witnessRegistry [] []
    witnessGateway ⟨some ⟨some ⟨none, some witnessToolCalls, none⟩⟩, none⟩
    ⟨none, some witnessToolCalls, none⟩ witnessToolCalls rfl rfl rfl
  refine ⟨h.1, by decide, ?_⟩
  obtain ⟨err, herr, hf⟩ := h.2.2
    ⟨execute_tool (fun _ => Except.error []) witnessRegistry
        ⟨"2".data, "beta".data, ArgPayload.structured []⟩,
      by decide, by decide⟩
  refine ⟨err, herr, ?_⟩
  have := hf (execute_tool (fun _ => Except.error []) witnessRegistry
    ⟨"2".data, "beta".data, ArgPayload.structured []⟩) (by decide) (by decide)
  simpa using this

/-- C8: classification fallback.  For every classifier response from which
the three-stage extraction (exact word-bounded match, then per-line, then
whole-response containment) recovers no known category token, classification
returns the fixed default — ambiguous_query on a first pass,
fetch_stock_data on a pass following self-clarification — and, being a
total function, never raises. -/
theorem classification_fallback (resp : Str) (st : StockAgentState)
    (hquiz : st.quiz_session_active = false)
    (htrig : containsStr st.query ("퀴즈도전".data) = false)
    (hex : extract_category_from_response resp = []) :
    (st.clarification_info = none →
      (classify_query resp st).query_category = "ambiguous_query".data) ∧
    (st.clarification_info ≠ none →
      (classify_query resp st).query_category = "fetch_stock_data".data) := by
  constructor <;> intro hci <;>
    simp [classify_query, hquiz, htrig, hci, hex]

/-- Witness for C8: a response containing no category token falls back to
ambiguous_query on the first pass and to fetch_stock_data after
self-clarification. -/
theorem classification_fallback_witness :
    (classify_query ("판단 불가".data) default_stock_agent_state).query_category
      = "ambiguous_query".data ∧
    (classify_query ("판단 불가".data)
        { default_stock_agent_state with
            clarification_info := some ⟨[], [], [], [], [], [], []⟩ }).query_category
      = "fetch_stock_data".data :=
  ⟨(classification_fallback ("판단 불가".data) default_stock_agent_state
      rfl rfl (by decide)).1 rfl,
   (classification_fallback ("판단 불가".data)
      { default_stock_agent_state with
          clarification_info := some ⟨[], [], [], [], [], [], []⟩ }
      rfl rfl (by decide)).2 (by decide)⟩

/-- Inserting an entry into a list by timestamp is a permutation of
consing it. -/
theorem insertByTimestamp_perm (e : SessionEntry) (l : List SessionEntry) :
    List.Perm (insertByTimestamp e l) (e :: l) := by
  induction l with
  | nil => exact List.Perm.refl _
  | cons x xs ih =>
      rw [insertByTimestamp]
      split
      · exact (ih.cons x).trans (List.Perm.swap e x xs)
      · exact List.Perm.refl _

/-- The stable timestamp sort permutes the store. -/
theorem sortByTimestamp_perm (l : List SessionEntry) :
    List.Perm (sortByTimestamp l) l := by
  induction l with
  | nil => exact List.Perm.refl _
  | cons x xs ih =>
      exact (insertByTimestamp_perm x (sortByTimestamp xs)).trans (ih.cons x)

/-- Mapping the session id commutes with filtering on a property of the
session id. -/
theorem map_sid_filter_mem (l : SessionStore) (R : List Str) :
    (l.filter (fun e => decide (e.sid ∈ R))).map SessionEntry.sid
      = (l.map SessionEntry.sid).filter (fun s => decide (s ∈ R)) := by
  induction l with
  | nil => rfl
  | cons a t ih => by_cases h : a.sid ∈ R <;> simp [h, ih]

/-- Splitting a list's length by a key-membership filter and its
complement. -/
theorem length_filter_mem_split (l : SessionStore) (R : List Str) :
    (l.filter (fun e => decide (e.sid ∉ R))).length
      + (l.filter (fun e => decide (e.sid ∈ R))).length = l.length := by
  induction l with
  | nil => rfl
  | cons a t ih =>
      by_cases h : a.sid ∈ R <;> simp [h] at ih ⊢ <;> omega

/-- The capacity step of the sweep: removing the least-recently-active
key block from an over-capacity store with distinct keys leaves exactly
MAX_SESSIONS entries. -/
theorem trim_to_capacity_length (l : SessionStore)
    (hnd : (l.map SessionEntry.sid).Nodup) (h5 : l.length > MAX_SESSIONS) :
    (l.filter (fun e => decide (e.sid ∉
        ((sortByTimestamp l).take (l.length - MAX_SESSIONS)).map SessionEntry.sid))).length
      = MAX_SESSIONS := by
  set R := ((sortByTimestamp l).take (l.length - MAX_SESSIONS)).map SessionEntry.sid
    with hRdef
  have hperm : List.Perm (sortByTimestamp l) l := sortByTimestamp_perm l
  have hndsort : ((sortByTimestamp l).map SessionEntry.sid).Nodup :=
    ((hperm.map SessionEntry.sid).nodup_iff).mpr hnd
  have hRnd : R.Nodup := by
    rw [hRdef, List.map_take]
    exact (List.take_sublist _ _).nodup hndsort
  have hRsub : ∀ r ∈ R, r ∈ l.map SessionEntry.sid := by
    intro r hr
    rw [hRdef] at hr
    obtain ⟨x, hx, rfl⟩ := List.mem_map.mp hr
    exact List.mem_map_of_mem _ (hperm.mem_iff.mp (List.mem_of_mem_take hx))
  have hRlen : R.length = l.length - MAX_SESSIONS := by
    rw [hRdef, List.length_map, List.length_take, hperm.length_eq]
    omega
  have hpermR : List.Perm ((l.map SessionEntry.sid).filter
      (fun s => decide (s ∈ R))) R := by
    refine (List.perm_ext_iff_of_nodup (hnd.filter _) hRnd).mpr ?_
    intro a
    simp only [List.mem_filter, decide_eq_true_iff]
    exact ⟨fun h => h.2, fun h => ⟨hRsub a h, h⟩⟩
  have hin : (l.filter (fun e => decide (e.sid ∈ R))).length = R.length := by
    have h := congrArg List.length (map_sid_filter_mem l R)
    rw [List.length_map] at h
    rw [h, hpermR.length_eq]
  have hsplit := length_filter_mem_split l R
  omega

/-- The sweep always leaves at most MAX_SESSIONS entries in a store with
distinct keys. -/
theorem cleanup_expired_sessions_length_le (now : Nat) (store : SessionStore)
    (hnd : (sessionIds store).Nodup) :
    (cleanup_expired_sessions now store).length ≤ MAX_SESSIONS := by
  have hnd1 : ((store.filter (fun e => decide (e.sid ∉
      (store.filter (sessionExpiredFlag now)).map SessionEntry.sid))).map
        SessionEntry.sid).Nodup :=
    ((List.filter_sublist store).map SessionEntry.sid).nodup hnd
  simp only [cleanup_expired_sessions]
  split
  · next h => exact (trim_to_capacity_length _ hnd1 h).le
  · next h => omega

/-- C1 counterexample: a lookup that inserts a sixth distinct session into
a full, fresh store leaves the population at 6 — nothing is evicted at
insert time, because the sweep ran before the insert. -/
theorem capacity_not_enforced_after_insert :
    ((get_session_state 5 ("S6".data) fiveFreshStore).2).length = 6 := by decide

/-- C1 amended: the capacity bound is enforced by the sweep that runs at
the start of each lookup, not immediately after an insert: every sweep of a
store with distinct keys leaves at most 5 records, a lookup (sweep plus at
most one insert) leaves at most 6, and the sweep after the counterexample
insert evicts exactly the least-recently-active session, leaving the other
five. -/
theorem capacity_enforced_at_next_sweep (now : Nat) (request_id : Str)
    (store : SessionStore) (hnd : (sessionIds store).Nodup) :
    (cleanup_expired_sessions now store).length ≤ MAX_SESSIONS ∧
    ((get_session_state now request_id store).2).length ≤ MAX_SESSIONS + 1 ∧
    sessionIds (cleanup_expired_sessions 6
        ((get_session_state 5 ("S6".data) fiveFreshStore).2))
      = ["S2".data, "S3".data, "S4".data, "S5".data, "S6".data] := by
  have h1 := cleanup_expired_sessions_length_le now store hnd
  refine ⟨h1, ?_, by decide⟩
  rw [get_session_state]
  by_cases hid : request_id = []
  · rw [if_pos hid]
    show (cleanup_expired_sessions now store).length ≤ MAX_SESSIONS + 1
    omega
  · rw [if_neg hid]
    cases hfind : (cleanup_expired_sessions now store).find?
        (fun e => decide (e.sid = request_id)) with
    | some e =>
        simp only [hfind, refreshTimestamp, List.length_map]
        omega
    | none =>
        simp only [hfind, List.length_append, List.length_cons, List.length_nil]
        omega

/-- Witness for the amended C1 theorem on the concrete full fresh store. -/
theorem capacity_enforced_at_next_sweep_witness :
    (cleanup_expired_sessions 5 fiveFreshStore).length ≤ MAX_SESSIONS ∧
    ((get_session_state 5 ("S6".data) fiveFreshStore).2).length ≤ MAX_SESSIONS + 1 ∧
    sessionIds (cleanup_expired_sessions 6
        ((get_session_state 5 ("S6".data) fiveFreshStore).2))
      = ["S2".data, "S3".data, "S4".data, "S5".data, "S6".data] :=
  capacity_enforced_at_next_sweep 5 ("S6".data) fiveFreshStore (by decide)

/-- An entry whose expiry flag is set is gone after the sweep: no entry
with its session id survives the expiry filter, and the capacity step only
removes further entries. -/
theorem cleanup_removes_expired (now : Nat) (store : SessionStore)
    (e : SessionEntry) (he : e ∈ store)
    (hf : sessionExpiredFlag now e = true) :
    e.sid ∉ sessionIds (cleanup_expired_sessions now store) := by
  have hmemE : e.sid ∈ (store.filter (sessionExpiredFlag now)).map SessionEntry.sid :=
    List.mem_map_of_mem _ (List.mem_filter.mpr ⟨he, hf⟩)
  have hnotin1 : e.sid ∉ sessionIds (store.filter (fun x => decide (x.sid ∉
      (store.filter (sessionExpiredFlag now)).map SessionEntry.sid))) := by
    intro habs
    obtain ⟨x, hx, hxeq⟩ := List.mem_map.mp habs
    have hx1 := List.mem_filter.mp hx
    rw [decide_eq_true_iff, hxeq] at hx1
    exact hx1.2 hmemE
  simp only [cleanup_expired_sessions]
  split
  · intro habs
    obtain ⟨x, hx, hxeq⟩ := List.mem_map.mp habs
    exact hnotin1 (hxeq ▸ List.mem_map_of_mem _ (List.mem_filter.mp hx).1)
  · exact hnotin1

/-- An unexpired entry of a store with distinct keys and population within
capacity survives the sweep. -/
theorem cleanup_keeps_fresh (now : Nat) (store : SessionStore)
    (e : SessionEntry) (hnd : (sessionIds store).Nodup) (he : e ∈ store)
    (hlen : store.length ≤ MAX_SESSIONS)
    (hf : sessionExpiredFlag now e = false) :
    e.sid ∈ sessionIds (cleanup_expired_sessions now store) := by
  have he1 : e ∈ store.filter (fun x => decide (x.sid ∉
      (store.filter (sessionExpiredFlag now)).map SessionEntry.sid)) := by
    refine List.mem_filter.mpr ⟨he, ?_⟩
    rw [decide_eq_true_iff]
    intro habs
    obtain ⟨x, hx, hxe⟩ := List.mem_map.mp habs
    have hx1 := List.mem_filter.mp hx
    have hxeq : x = e := List.inj_on_of_nodup_map hnd hx1.1 he hxe
    subst hxeq
    rw [hx1.2] at hf
    cases hf
  have hlen1 : (store.filter (fun x => decide (x.sid ∉
      (store.filter (sessionExpiredFlag now)).map SessionEntry.sid))).length
      ≤ MAX_SESSIONS :=
    le_trans (List.length_filter_le _ _) hlen
  simp only [cleanup_expired_sessions]
  rw [if_neg (by omega)]
  exact List.mem_map_of_mem _ he1

/-- C6 counterexample: a record idle for only five seconds ("S1", far under
the ten-minute bound, with no quiz active) is nonetheless absent after a
sweep of a six-session store — the sweep's capacity step evicts
least-recently-active records whenever the population exceeds 5, expired or
not, so retention of records idle at most ten minutes does not hold as
stated. -/
theorem fresh_record_removed_by_sweep :
    ("S1".data ∈ sessionIds sixFreshStore ∧
     sessionExpiredFlag 5 ⟨"S1".data, default_stock_agent_state, 0⟩ = false) ∧
    "S1".data ∉ sessionIds (cleanup_expired_sessions 5 sixFreshStore) := by
  refine ⟨⟨by decide, by decide⟩, by decide⟩

/-- C6 amended: a sweep removes every record whose idle time strictly
exceeds ten minutes, and every record whose embedded quiz session is active
and independently expired even when the record itself is fresh; a record
with neither condition is retained provided the store's population is
within the capacity limit (otherwise the capacity step may evict fresh
least-recently-active records as well). -/
theorem sweep_semantics (now : Nat) (store : SessionStore) (e : SessionEntry)
    (hnd : (sessionIds store).Nodup) (he : e ∈ store) :
    ((now - e.timestamp > SESSION_TIMEOUT_MINUTES * 60 ∨
      (e.state.quiz_session_active = true ∧
        QuizSessionManager.is_session_expired now e.state = true)) →
      e.sid ∉ sessionIds (cleanup_expired_sessions now store)) ∧
    (store.length ≤ MAX_SESSIONS →
      now - e.timestamp ≤ SESSION_TIMEOUT_MINUTES * 60 →
      ¬ (e.state.quiz_session_active = true ∧
        QuizSessionManager.is_session_expired now e.state = true) →
      e.sid ∈ sessionIds (cleanup_expired_sessions now store)) := by
  have hflag : sessionExpiredFlag now e = true ↔
      (now - e.timestamp > SESSION_TIMEOUT_MINUTES * 60 ∨
        (e.state.quiz_session_active = true ∧
          QuizSessionManager.is_session_expired now e.state = true)) := by
    simp [sessionExpiredFlag]
  constructor
  · intro hcond
    exact cleanup_removes_expired now store e he (hflag.mpr hcond)
  · intro hlen hidle hquiz
    refine cleanup_keeps_fresh now store e hnd he hlen ?_
    rw [Bool.eq_false_iff]
    intro habs
    rcases hflag.mp habs with h | h
    · omega
    · exact hquiz h

/-- Witness for the amended C6 theorem: in a two-session store, a record
idle for exactly eleven minutes is absent after the sweep while a record
idle for exactly ten minutes is retained. -/
theorem sweep_semantics_witness :
    ("Old".data ∉ sessionIds (cleanup_expired_sessions 660
      [⟨"Old".data, default_stock_agent_state, 0⟩,
       ⟨"Edge".data, default_stock_agent_state, 60⟩])) ∧
    ("Edge".data ∈ sessionIds (cleanup_expired_sessions 660
      [⟨"Old".data, default_stock_agent_state, 0⟩,
       ⟨"Edge".data, default_stock_agent_state, 60⟩])) :=
  ⟨(sweep_semantics 660
      [⟨"Old".data, default_stock_agent_state, 0⟩,
       ⟨"Edge".data, default_stock_agent_state, 60⟩]
      ⟨"Old".data, default_stock_agent_state, 0⟩
      (by decide) (by decide)).1 (by decide),
   (sweep_semantics 660
      [⟨"Old".data, default_stock_agent_state, 0⟩,
       ⟨"Edge".data, default_stock_agent_state, 60⟩]
      ⟨"Edge".data, default_stock_agent_state, 60⟩
      (by decide) (by decide)).2 (by decide) (by decide) (by decide)⟩

/-- C9: the quiz correctness loop.  For an active, unexpired quiz in phase
asking, an incorrect (non-hint) answer leaves the session in phase asking
with the current question unchanged, no durable write, and the
wrong-answer-plus-hint payload stored; a subsequent correct answer to the
same question (the phase passing through processing and completed inside
the handlers) tears the session down to inactive and appends exactly one
history record to durable storage. -/
theorem quiz_correctness_loop (o : QuizOracles) (now₁ now₂ : Nat)
    (sb : StockAgentState → Str → QuizDB → StockAgentState × QuizDB)
    (st : StockAgentState) (db : QuizDB) (q : QuizData) (t : Nat) (a₂ : Str)
    (hactive : st.quiz_session_active = true)
    (hphase : st.quiz_session_phase = "asking".data)
    (hstart : st.quiz_session_start_time = some t)
    (hq : st.quiz_current_question = some q)
    (hfresh₁ : now₁ - t ≤ SESSION_TIMEOUT_MINUTES * 60)
    (hfresh₂ : now₂ - t ≤ SESSION_TIMEOUT_MINUTES * 60)
    (hhint₁ : lowerStr (stripStr st.query) ∉ hint_request_phrases)
    (hhint₂ : lowerStr (stripStr a₂) ∉ hint_request_phrases)
    (hchk₁ : o.check_answer q (stripStr st.query) = ⟨true, false⟩)
    (hchk₂ : o.check_answer q (stripStr a₂) = ⟨true, true⟩)
    (hsave : o.save = SaveOutcome.ok) :
    quiz_stock_data o now₁ sb st db
      = ({ st with
            quiz_session_phase := "asking".data,
            data := some ⟨"quiz".data,
              [.wrongAnswerWithHint
                (wrong_answer_message_text (stripStr st.query) (o.get_hint q))
                (stripStr st.query) (o.get_hint q) true],
              1, "퀴즈 #".data ++ natToStr q.id ++ " 오답 + 힌트 제공".data,
              "quiz_wrong_answer".data⟩ }, db) ∧
    quiz_stock_data o now₂ sb
        { st with
            quiz_session_phase := "asking".data,
            data := some ⟨"quiz".data,
              [.wrongAnswerWithHint
                (wrong_answer_message_text (stripStr st.query) (o.get_hint q))
                (stripStr st.query) (o.get_hint q) true],
              1, "퀴즈 #".data ++ natToStr q.id ++ " 오답 + 힌트 제공".data,
              "quiz_wrong_answer".data⟩,
            query := a₂ } db
      = ({ st with
            query := a₂,
            quiz_session_active := false,
            quiz_session_id := [],
            quiz_session_start_time := none,
            quiz_current_question := none,
            quiz_hint_used := false,
            quiz_session_phase := "inactive".data,
            data := some ⟨"quiz".data,
              [.answerChecking
                (o.format_answer_result (o.generate_answer_package q (stripStr a₂)))
                true true],
              1, "퀴즈 정답: ".data ++ stripStr a₂, "quiz_answer".data⟩ },
          db ++ [⟨st.request_id, q.id, q.question, q.correct_company, stripStr a₂,
            true, st.quiz_hint_used,
            ((o.generate_answer_package q (stripStr a₂)).reward_info.bind
              RewardPackage.stock_name).getD q.correct_company,
            ((o.generate_answer_package q (stripStr a₂)).reward_info.bind
              RewardPackage.amount).getD 0⟩]) := by
  have hexp₁ : QuizSessionManager.is_session_expired now₁ st = false := by
    simp [QuizSessionManager.is_session_expired,
      QuizSessionManager.is_session_active, hactive, hstart]
    omega
  constructor
  · simp only [quiz_stock_data, QuizSessionManager.cleanup_expired_session, hexp₁,
      Bool.false_eq_true, if_false, hphase, QuizSessionPhase.value]
    rw [if_pos trivial]
    simp only [_handle_user_answer, hq, if_neg hhint₁,
      QuizSessionManager.update_session_phase,
      QuizSessionManager.is_session_active, hactive]
    simp only [hchk₁]
    simp [_handle_wrong_answer, QuizSessionManager.update_session_phase,
      QuizSessionManager.is_session_active, QuizSessionPhase.value]
  · have hexp₂ : QuizSessionManager.is_session_expired now₂
        { st with
            quiz_session_phase := "asking".data,
            data := some ⟨"quiz".data,
              [.wrongAnswerWithHint
                (wrong_answer_message_text (stripStr st.query) (o.get_hint q))
                (stripStr st.query) (o.get_hint q) true],
              1, "퀴즈 #".data ++ natToStr q.id ++ " 오답 + 힌트 제공".data,
              "quiz_wrong_answer".data⟩,
            query := a₂ } = false := by
      simp [QuizSessionManager.is_session_expired,
        QuizSessionManager.is_session_active, hactive, hstart]
      omega
    simp only [quiz_stock_data, QuizSessionManager.cleanup_expired_session, hexp₂,
      Bool.false_eq_true, if_false, QuizSessionPhase.value]
    rw [if_pos trivial]
    simp only [_handle_user_answer, hq, if_neg hhint₂,
      QuizSessionManager.update_session_phase,
      QuizSessionManager.is_session_active, hactive]
    simp only [hchk₂]
    simp only [_handle_correct_answer, QuizSessionManager.update_session_phase,
      QuizSessionManager.is_session_active, hactive,
      QuizSessionManager.end_session, hsave]
    simp [hq, QuizSessionPhase.value]

/-- Witness for C9 on a fully concrete session: the wrong answer "3" keeps
the quiz asking with the same question and nothing written durably, and the
follow-up correct answer "2" tears the session down and writes exactly one
history record. -/
theorem quiz_correctness_loop_witness :
    (quiz_stock_data witnessQuizOracles 10 (fun s _ d => (s, d))
        witnessQuizState []).1.quiz_session_phase = "asking".data ∧
    (quiz_stock_data witnessQuizOracles 10 (fun s _ d => (s, d))
        witnessQuizState []).1.quiz_current_question = some witnessQuiz ∧
    (quiz_stock_data witnessQuizOracles 10 (fun s _ d => (s, d))
        witnessQuizState []).2 = [] ∧
    (quiz_stock_data witnessQuizOracles 20 (fun s _ d => (s, d))
        { witnessQuizState with
            quiz_session_phase := "asking".data,
            data := some ⟨"quiz".data,
              [.wrongAnswerWithHint
                (wrong_answer_message_text (stripStr witnessQuizState.query)
                  (witnessQuizOracles.get_hint witnessQuiz))
                (stripStr witnessQuizState.query)
                (witnessQuizOracles.get_hint witnessQuiz) true],
              1, "퀴즈 #".data ++ natToStr witnessQuiz.id ++ " 오답 + 힌트 제공".data,
              "quiz_wrong_answer".data⟩,
            query := "2".data } []).1.quiz_session_phase = "inactive".data ∧
    (quiz_stock_data witnessQuizOracles 20 (fun s _ d => (s, d))
        { witnessQuizState with
            quiz_session_phase := "asking".data,
            data := some ⟨"quiz".data,
              [.wrongAnswerWithHint
                (wrong_answer_message_text (stripStr witnessQuizState.query)
                  (witnessQuizOracles.get_hint witnessQuiz))
                (stripStr witnessQuizState.query)
                (witnessQuizOracles.get_hint witnessQuiz) true],
              1, "퀴즈 #".data ++ natToStr witnessQuiz.id ++ " 오답 + 힌트 제공".data,
              "quiz_wrong_answer".data⟩,
            query := "2".data } []).1.quiz_session_active = false ∧
    (quiz_stock_data witnessQuizOracles 20 (fun s _ d => (s, d))
        { witnessQuizState with
            quiz_session_phase := "asking".data,
            data := some ⟨"quiz".data,
              [.wrongAnswerWithHint
                (wrong_answer_message_text (stripStr witnessQuizState.query)
                  (witnessQuizOracles.get_hint witnessQuiz))
                (stripStr witnessQuizState.query)
                (witnessQuizOracles.get_hint witnessQuiz) true],
              1, "퀴즈 #".data ++ natToStr witnessQuiz.id ++ " 오답 + 힌트 제공".data,
              "quiz_wrong_answer".data⟩,
            query := "2".data } []).2.length = 1 := by
  have h := quiz_correctness_loop witnessQuizOracles 10 20 (fun s _ d => (s, d))
    witnessQuizState [] witnessQuiz 0 ("2".data) rfl rfl rfl rfl (by decide)
    (by decide) (by decide) (by decide) (by decide) (by decide) rfl
  refine ⟨?_, ?_, ?_, ?_, ?_, ?_⟩
  · rw [h.1]
  · rw [h.1]; rfl
  · rw [h.1]
  · rw [h.2]
  · rw [h.2]
  · rw [h.2]; rfl

end StockAgent
